import Mathlib

set_option linter.unusedVariables false

/-!
Verification of the kernel-object signal and asynchronous wait engine of
`zircon-object/src/object/mod.rs`.

Modelling conventions:
* The mutable state guarded by each object's lock (`KObjectBaseInner`) is an
  explicit value threaded through the operations; executing under the lock
  becomes ordinary sequential state passing.
* A Rust signal callback is `Box<dyn Fn(Signal) -> bool + Send>`; its hidden
  side effects (waking a suspended task, pushing a packet to a port) are made
  explicit: a handler returns the retirement boolean together with the list of
  effects its invocation performs.  Each handler also carries a `cbId`
  modelling the identity of the boxed closure (a `Box` is a unique heap
  value), so that "the same callback" is expressible.
* The process-wide `KOID` atomic counter becomes explicit counter state.
-/

/-- Modelled from the spec: `Signal` (its defining file `object/signal.rs` is
not under `src/`): a fixed-width named bitmask over a closed set of bits,
modelled as the finite set of asserted bit positions of the 32-bit mask. -/
abbrev Signal := Finset (Fin 32)

/-- Bitflags `remove` as used by `signal_change`: `bits &= !other.bits`. -/
def Signal.remove (s c : Signal) : Signal := s \ c

/-- Bitflags `insert` as used by `signal_change`: `bits |= other.bits`. -/
def Signal.insert (s t : Signal) : Signal := s ∪ t

/-- Bitflags intersection `s & t` as used by the wait paths. -/
def Signal.and (s t : Signal) : Signal := s ∩ t

/-- Bitflags `is_empty`: no bit asserted. -/
def Signal.isEmpty (s : Signal) : Bool := decide (s = ∅)

/-- Bitflags `Signal::empty()`. -/
def Signal.emptySig : Signal := ∅

/-- Modelled from the spec: user signal bit `USER_SIGNAL_0` (bit 24). -/
def Signal.USER_SIGNAL_0 : Signal := {24}

/-- Modelled from the spec: user signal bit `USER_SIGNAL_7` (bit 31). -/
def Signal.USER_SIGNAL_7 : Signal := {31}

/-- Modelled from the spec: `USER_ALL`, the full user-signal range
(bits 24–31, i.e. `USER_SIGNAL_0 | ... | USER_SIGNAL_7`). -/
def Signal.USER_ALL : Signal := {24, 25, 26, 27, 28, 29, 30, 31}

/-- The u64 modulus `2^64`: `KoID` is `u64` and the `KOID` counter is an
`AtomicU64`, whose `fetch_add` wraps at this modulus. -/
def U64_MOD : Nat := 2 ^ 64

/-- The type of kernel object IDs (`pub type KoID = u64`): u64 values are the
naturals below `2^64`; every id produced by `new_koid` is reduced
mod `2^64`. -/
abbrev KoID := Nat

/-- Modelled from the spec: the status-code type (`error.rs` is not under
`src/`); only the variants used by this engine are modelled. -/
inductive ZxError where
  | OK
  | WRONG_TYPE
  | NOT_SUPPORTED
deriving DecidableEq

/-- Result type `ZxResult<T> = Result<T, ZxError>`. -/
abbrev ZxResult (α : Type) := Except ZxError α

/-- The signal payload of a port packet (`PacketSignal`). -/
structure PacketSignal where
  trigger : Signal
  observed : Signal
  count : Nat
  timestamp : Nat
  _reserved1 : Nat
deriving DecidableEq

/-- Port packet payload; only the `Signal` variant is used by this engine. -/
inductive PayloadRepr where
  | signal (p : PacketSignal)
deriving DecidableEq

/-- A port packet as built by `send_signal_to_port_async` (`PortPacketRepr`). -/
structure PortPacketRepr where
  key : Nat
  status : ZxError
  data : PayloadRepr
deriving DecidableEq

/-- An observable side effect performed by a signal callback: waking a
suspended computation (`waker.wake_by_ref()`, the waker named by an id) or
pushing a packet to a port (`port.push(...)`, the port named by an id). -/
inductive Effect where
  | wake (waker : Nat)
  | push (port : Nat) (packet : PortPacketRepr)
deriving DecidableEq

/-- The type of kernel object signal handlers
(`pub type SignalHandler = Box<dyn Fn(Signal) -> bool + Send>`): `run`
maps the new signal to the retirement boolean plus the effects performed
by the invocation; `cbId` models the identity of the boxed closure. -/
structure SignalHandler where
  cbId : Nat
  run : Signal → Bool × List Effect

/-- The mutable part of `KObjectBase` (`KObjectBaseInner`), guarded by the
object's lock. -/
structure KObjectBaseInner where
  name : String := ""
  signal : Signal := ∅
  signal_callbacks : List SignalHandler := []

/-- The base struct of a kernel object (`KObjectBase`). -/
structure KObjectBase where
  id : KoID
  inner : KObjectBaseInner

/-- Seed of the `KOID` counter: `static KOID: AtomicU64 = AtomicU64::new(1024)`. -/
def KOID_SEED : Nat := 1024

/-- `KObjectBase::new_koid`: `KOID.fetch_add(1)` on the wrapping u64 atomic —
returns the stored counter value (a u64, reduced mod `2^64`) as the fresh id
and stores `(koid + 1) % 2^64`. -/
def KObjectBase.new_koid (koid : Nat) : KoID × Nat :=
  (koid % U64_MOD, (koid + 1) % U64_MOD)

/-- `KObjectBase::with(name, signal)`: fresh id from the counter, given name
and signal, empty callback list. -/
def KObjectBase.with' (name : String) (signal : Signal) (koid : Nat) :
    KObjectBase × Nat :=
  let r := KObjectBase.new_koid koid
  ({ id := r.1, inner := { name := name, signal := signal } }, r.2)

/-- `KObjectBase::new()` (via `Default`): fresh id, default inner state. -/
def KObjectBase.new (koid : Nat) : KObjectBase × Nat :=
  let r := KObjectBase.new_koid koid
  ({ id := r.1, inner := {} }, r.2)

/-- `KObjectBase::with_signal(signal) = with(Default::default(), signal)`. -/
def KObjectBase.with_signal (signal : Signal) (koid : Nat) : KObjectBase × Nat :=
  KObjectBase.with' "" signal koid

/-- `KObjectBase::with_name(name) = with(name, Default::default())`. -/
def KObjectBase.with_name (name : String) (koid : Nat) : KObjectBase × Nat :=
  KObjectBase.with' name ∅ koid

/-- `KObjectBase::name`. -/
def KObjectBase.name (o : KObjectBase) : String := o.inner.name

/-- `KObjectBase::set_name`. -/
def KObjectBase.set_name (o : KObjectBase) (name : String) : KObjectBase :=
  { o with inner := { o.inner with name := name } }

/-- `KObjectBase::signal`: lock, copy, return. -/
def KObjectBase.signal (o : KObjectBase) : Signal := o.inner.signal

/-- `Vec::retain(|f| !f(new_signal))` on the callback list: invoke each
handler once, in order, on `new_signal`; keep exactly those returning
`false`; collect the effects of every invocation in order. -/
def retain_callbacks (new_signal : Signal) :
    List SignalHandler → List SignalHandler × List Effect
  | [] => ([], [])
  | f :: rest =>
    let r := f.run new_signal
    let rec' := retain_callbacks new_signal rest
    (if r.1 then rec'.1 else f :: rec'.1, r.2 ++ rec'.2)

/-- `KObjectBase::signal_change(clear, set)`: compute
`new = (old & !clear) | set` under the lock; if unchanged return without
touching the callback list, otherwise store the new signal and retain
exactly the callbacks whose invocation on `new` returns `false`. -/
def KObjectBase.signal_change (o : KObjectBase) (clear set : Signal) :
    KObjectBase × List Effect :=
  let old_signal := o.inner.signal
  let new_signal := Signal.insert (Signal.remove old_signal clear) set
  if new_signal = old_signal then
    ({ o with inner := { o.inner with signal := new_signal } }, [])
  else
    let r := retain_callbacks new_signal o.inner.signal_callbacks
    ({ o with inner :=
        { o.inner with signal := new_signal, signal_callbacks := r.1 } }, r.2)

/-- `KObjectBase::signal_set(signal) = signal_change(Signal::empty(), signal)`. -/
def KObjectBase.signal_set (o : KObjectBase) (signal : Signal) :
    KObjectBase × List Effect :=
  o.signal_change ∅ signal

/-- `KObjectBase::signal_clear(signal) = signal_change(signal, Signal::empty())`. -/
def KObjectBase.signal_clear (o : KObjectBase) (signal : Signal) :
    KObjectBase × List Effect :=
  o.signal_change signal ∅

/-- `KObjectBase::add_signal_callback(callback)`: under the lock evaluate the
callback once on the current signal; if it returns `true` discard it,
otherwise push it onto the callback list. -/
def KObjectBase.add_signal_callback (o : KObjectBase) (callback : SignalHandler) :
    KObjectBase × List Effect :=
  let r := callback.run o.inner.signal
  if r.1 then (o, r.2)
  else
    ({ o with inner :=
        { o.inner with
          signal_callbacks := o.inner.signal_callbacks ++ [callback] } }, r.2)

/-- The handlers a `signal_change(clear, set)` transition invokes: none when
the transition is a no-op, otherwise every entry of the callback list. -/
def KObjectBase.invoked (o : KObjectBase) (clear set : Signal) :
    List SignalHandler :=
  let new_signal := Signal.insert (Signal.remove o.inner.signal clear) set
  if new_signal = o.inner.signal then [] else o.inner.signal_callbacks

/-- Fold a sequence of `signal_change` operations over an object. -/
def KObjectBase.runChanges (o : KObjectBase) (ops : List (Signal × Signal)) :
    KObjectBase :=
  ops.foldl (fun s p => (KObjectBase.signal_change s p.1 p.2).1) o

/-- Default `KernelObject::get_child`: `Err(ZxError::WRONG_TYPE)`. -/
def KernelObject.get_child (_id : KoID) : ZxResult Unit :=
  Except.error ZxError.WRONG_TYPE

/-- Default `KernelObject::peer`: `Err(ZxError::NOT_SUPPORTED)`. -/
def KernelObject.peer : ZxResult Unit :=
  Except.error ZxError.NOT_SUPPORTED

/-- Default `KernelObject::related_koid`: `0`. -/
def KernelObject.related_koid : KoID := 0

/-- Default `KernelObject::allowed_signals`: `Signal::USER_ALL`. -/
def KernelObject.allowed_signals : Signal := Signal.USER_ALL

/-- The result of polling a suspendable computation (`core::task::Poll`). -/
inductive Poll (α : Type) where
  | ready (value : α)
  | pending
deriving DecidableEq

/-- The closure registered by `wait_signal` (and, per target, by
`wait_signal_many`): on a new signal `s`, return `false` when `s` does not
intersect the desired mask; otherwise wake the waiter and return `true`. -/
def wait_callback (signal : Signal) (waker : Nat) (s : Signal) :
    Bool × List Effect :=
  if Signal.isEmpty (Signal.and s signal) then (false, [])
  else (true, [Effect.wake waker])

/-- The state of the future returned by `wait_signal` (`SignalFuture`):
the object, the desired mask, and the `first` registration flag. -/
structure SignalFuture where
  object : KObjectBase
  signal : Signal
  first : Bool

/-- `KernelObject::wait_signal(signal)`: build the future with `first = true`. -/
def wait_signal (object : KObjectBase) (signal : Signal) : SignalFuture :=
  { object := object, signal := signal, first := true }

/-- `SignalFuture::poll`: if the current signal intersects the desired mask,
resolve with the observed signal; otherwise on the first poll register the
wake callback (with fresh closure identity `cbId`, waking `waker`) and then
stay pending. -/
def SignalFuture.poll (fut : SignalFuture) (cbId waker : Nat) :
    Poll Signal × SignalFuture × List Effect :=
  let current_signal := fut.object.signal
  if ¬ Signal.isEmpty (Signal.and current_signal fut.signal) then
    (Poll.ready current_signal, fut, [])
  else if fut.first then
    let r := fut.object.add_signal_callback
      { cbId := cbId, run := wait_callback fut.signal waker }
    (Poll.pending, { object := r.1, signal := fut.signal, first := false }, r.2)
  else
    (Poll.pending, fut, [])

/-- The packet `send_signal_to_port_async` builds: given key, trigger mask
and observed signal — OK status, count 1, timestamp unset. -/
def signalPacket (key : Nat) (trigger observed : Signal) : PortPacketRepr :=
  { key := key
    status := ZxError.OK
    data := PayloadRepr.signal
      { trigger := trigger, observed := observed, count := 1,
        timestamp := 0, _reserved1 := 0 } }

/-- The one-shot closure registered by `send_signal_to_port_async`: on a new
signal `s`, return `false` when `s` does not intersect the desired mask;
otherwise push the packet (observed = `s`) to the port and return `true`. -/
def port_callback (signal : Signal) (port key : Nat) (s : Signal) :
    Bool × List Effect :=
  if Signal.isEmpty (Signal.and s signal) then (false, [])
  else (true, [Effect.push port (signalPacket key signal s)])

/-- `KernelObject::send_signal_to_port_async(signal, port, key)`: if the
current signal already intersects the mask, push one packet (observed =
current signal) and register nothing; otherwise register the one-shot
port callback (with fresh closure identity `cbId`). -/
def KObjectBase.send_signal_to_port_async (o : KObjectBase) (signal : Signal)
    (port key cbId : Nat) : KObjectBase × List Effect :=
  let current_signal := o.signal
  if ¬ Signal.isEmpty (Signal.and current_signal signal) then
    (o, [Effect.push port (signalPacket key signal current_signal)])
  else
    o.add_signal_callback { cbId := cbId, run := port_callback signal port key }

/-- The state of the future returned by `wait_signal_many`
(`SignalManyFuture`): the `(object, desired_mask)` targets and the `first`
registration flag. -/
structure SignalManyFuture where
  targets : List (KObjectBase × Signal)
  first : Bool

/-- `wait_signal_many(targets)`: build the future with `first = true`. -/
def wait_signal_many (targets : List (KObjectBase × Signal)) :
    SignalManyFuture :=
  { targets := targets, first := true }

/-- `SignalManyFuture::happened`: some target's current signal intersects its
desired mask. -/
def SignalManyFuture.happened (targets : List (KObjectBase × Signal))
    (current_signals : List Signal) : Bool :=
  (targets.zip current_signals).any
    fun p => ! Signal.isEmpty (Signal.and p.2 p.1.2)

/-- The registration loop of `SignalManyFuture::poll`: for each target in
order, register a wake callback on its object (closure identities
`cbId, cbId+1, ...`), collecting the effects of the eager evaluations. -/
def register_callbacks (waker : Nat) :
    Nat → List (KObjectBase × Signal) →
    List (KObjectBase × Signal) × List Effect
  | _, [] => ([], [])
  | cbId, (object, signal) :: rest =>
    let r := object.add_signal_callback
      { cbId := cbId, run := wait_callback signal waker }
    let rec' := register_callbacks waker (cbId + 1) rest
    ((r.1, signal) :: rec'.1, r.2 ++ rec'.2)

/-- `SignalManyFuture::poll`: snapshot every target's signal; if any target
qualifies, resolve with the whole snapshot vector; otherwise on the first
poll register one wake callback per target, then stay pending. -/
def SignalManyFuture.poll (fut : SignalManyFuture) (cbId waker : Nat) :
    Poll (List Signal) × SignalManyFuture × List Effect :=
  let current_signals := fut.targets.map fun t => t.1.signal
  if SignalManyFuture.happened fut.targets current_signals then
    (Poll.ready current_signals, fut, [])
  else if fut.first then
    let r := register_callbacks waker cbId fut.targets
    (Poll.pending, { targets := r.1, first := false }, r.2)
  else
    (Poll.pending, fut, [])

/-- A construction request for an object state: which of the four
constructors (`new`, `with_signal`, `with_name`, `with`) runs. -/
inductive KObjCtor where
  | mkNew
  | mkWithSignal (signal : Signal)
  | mkWithName (name : String)
  | mkWith (name : String) (signal : Signal)

/-- Run one construction against the `KOID` counter state. -/
def runCtor : KObjCtor → Nat → KObjectBase × Nat
  | KObjCtor.mkNew, k => KObjectBase.new k
  | KObjCtor.mkWithSignal s, k => KObjectBase.with_signal s k
  | KObjCtor.mkWithName n, k => KObjectBase.with_name n k
  | KObjCtor.mkWith n s, k => KObjectBase.with' n s k

/-- Run a sequence of constructions from a counter state, collecting the
constructed objects in order. -/
def buildAll : List KObjCtor → Nat → List KObjectBase × Nat
  | [], k => ([], k)
  | c :: rest, k =>
    let r := runCtor c k
    let r' := buildAll rest r.2
    (r.1 :: r'.1, r'.2)

/-- A concrete target list used to evaluate the multi-object wait: one
object with empty signal, desired mask `{0}`. -/
def sampleTargets : List (KObjectBase × Signal) :=
  [(⟨1024, { name := "", signal := ∅, signal_callbacks := [] }⟩, {0})]

/-- A concrete object state with empty signal and no callbacks. -/
def sampleObj0 : KObjectBase :=
  ⟨1024, { name := "", signal := ∅, signal_callbacks := [] }⟩

/-- A concrete object state with signal `{0}` and no callbacks. -/
def sampleObj1 : KObjectBase :=
  ⟨1024, { name := "", signal := {0}, signal_callbacks := [] }⟩

/-- A concrete object state with signal `{2}` and no callbacks. -/
def sampleObj2 : KObjectBase :=
  ⟨1025, { name := "", signal := {2}, signal_callbacks := [] }⟩

/-- A concrete handler that always retires (returns `true`, no effect). -/
def sampleHandlerTrue : SignalHandler := ⟨0, fun _ => (true, [])⟩

/-- A concrete handler that never retires (returns `false`, no effect). -/
def sampleHandlerFalse : SignalHandler := ⟨1, fun _ => (false, [])⟩

/-- A concrete object state holding one retiring and one persisting
callback. -/
def sampleObjC : KObjectBase :=
  ⟨1024, { name := "", signal := ∅,
           signal_callbacks := [sampleHandlerTrue, sampleHandlerFalse] }⟩

/-- A concrete object state holding one retiring callback. -/
def sampleObj6 : KObjectBase :=
  ⟨1024, { name := "", signal := ∅, signal_callbacks := [sampleHandlerTrue] }⟩

/-! ### Supporting lemmas -/

/-- The callbacks kept by the retain sweep are exactly those whose invocation
on the new signal returns `false`, in their original order. -/
theorem retain_callbacks_fst (new_signal : Signal) (l : List SignalHandler) :
    (retain_callbacks new_signal l).1 =
      l.filter fun f => !(f.run new_signal).1 := by
  induction l with
  | nil => rfl
  | cons f rest ih =>
    simp only [retain_callbacks, List.filter, ih]
    cases h : (f.run new_signal).1 <;> simp [h]

/-- The signal stored by `signal_change` is `(old & !clear) | set` in both
branches. -/
theorem signal_change_signal (o : KObjectBase) (clear set : Signal) :
    (o.signal_change clear set).1.inner.signal =
      Signal.insert (Signal.remove o.inner.signal clear) set := by
  simp only [KObjectBase.signal_change]
  split <;> rfl

/-- The id of an object is untouched by `signal_change`. -/
theorem signal_change_id (o : KObjectBase) (clear set : Signal) :
    (o.signal_change clear set).1.id = o.id := by
  simp only [KObjectBase.signal_change]
  split <;> rfl

/-- The name of an object is untouched by `signal_change`. -/
theorem signal_change_name (o : KObjectBase) (clear set : Signal) :
    (o.signal_change clear set).1.inner.name = o.inner.name := by
  simp only [KObjectBase.signal_change]
  split <;> rfl

/-- The callback list after `signal_change`: untouched on a no-op transition,
otherwise filtered by retirement. -/
theorem signal_change_callbacks (o : KObjectBase) (clear set : Signal) :
    (o.signal_change clear set).1.inner.signal_callbacks =
      (if Signal.insert (Signal.remove o.inner.signal clear) set = o.inner.signal
       then o.inner.signal_callbacks
       else o.inner.signal_callbacks.filter
         fun f => !(f.run (Signal.insert (Signal.remove o.inner.signal clear) set)).1) := by
  simp only [KObjectBase.signal_change]
  split <;> simp_all [retain_callbacks_fst]

/-- The transition function of `signal_change` is idempotent on bitmasks. -/
theorem sdiff_union_idem (x c s : Signal) :
    Signal.insert (Signal.remove (Signal.insert (Signal.remove x c) s) c) s =
      Signal.insert (Signal.remove x c) s := by
  simp only [Signal.insert, Signal.remove]
  ext b
  simp only [Finset.mem_union, Finset.mem_sdiff]
  tauto

/-! ### Claim theorems -/

/-- Claim C1: `signal_change(clear, set)` replaces the stored signal with
`new = (old & !clear) | set`; when `new = old` it leaves the state (and in
particular the callback list) untouched and performs no invocation; otherwise
it retains exactly the callbacks whose invocation on `new` returns `false`. -/
theorem signal_change_spec (o : KObjectBase) (clear set : Signal) :
    ((o.signal_change clear set).1.inner.signal =
      Signal.insert (Signal.remove o.inner.signal clear) set) ∧
    (Signal.insert (Signal.remove o.inner.signal clear) set = o.inner.signal →
      (o.signal_change clear set).1 = o ∧ (o.signal_change clear set).2 = []) ∧
    (Signal.insert (Signal.remove o.inner.signal clear) set ≠ o.inner.signal →
      (o.signal_change clear set).1.inner.signal_callbacks =
        o.inner.signal_callbacks.filter
          fun f => !(f.run (Signal.insert (Signal.remove o.inner.signal clear) set)).1) := by
  refine ⟨signal_change_signal o clear set, fun h => ?_, fun h => ?_⟩
  · constructor
    · show (o.signal_change clear set).1 = o
      simp only [KObjectBase.signal_change, if_pos h]
      rw [h]
    · show (o.signal_change clear set).2 = []
      simp [KObjectBase.signal_change, if_pos h]
  · have := signal_change_callbacks o clear set
    rwa [if_neg h] at this

/-- Claim C3: `add_signal_callback(cb)` evaluates `cb` on the current signal
before insertion; if that returns `true` the callback is discarded (the state
is unchanged), otherwise it is appended at the tail of the callback list;
hence every stored callback is either an old entry or one whose evaluation on
the registration-time signal returned `false`. -/
theorem add_signal_callback_spec (o : KObjectBase) (cb : SignalHandler) :
    ((cb.run o.inner.signal).1 = true → (o.add_signal_callback cb).1 = o) ∧
    ((cb.run o.inner.signal).1 = false →
      (o.add_signal_callback cb).1.inner.signal_callbacks =
        o.inner.signal_callbacks ++ [cb]) ∧
    (∀ f ∈ (o.add_signal_callback cb).1.inner.signal_callbacks,
      f ∈ o.inner.signal_callbacks ∨ (f.run o.inner.signal).1 = false) := by
  refine ⟨fun h => ?_, fun h => ?_, fun f hf => ?_⟩
  · simp [KObjectBase.add_signal_callback, h]
  · simp [KObjectBase.add_signal_callback, h]
  · by_cases h : (cb.run o.inner.signal).1 = true
    · simp only [KObjectBase.add_signal_callback, if_pos h] at hf
      exact Or.inl hf
    · simp only [KObjectBase.add_signal_callback, if_neg h] at hf
      rcases List.mem_append.mp hf with h1 | h1
      · exact Or.inl h1
      · rw [List.mem_singleton] at h1
        subst h1
        exact Or.inr (Bool.eq_false_iff.mpr h)

/-- Claim C7: applying `signal_change(clear, set)` twice consecutively yields
the same final stored signal as applying it once. -/
theorem signal_change_idempotent (o : KObjectBase) (clear set : Signal) :
    ((o.signal_change clear set).1.signal_change clear set).1.inner.signal =
      (o.signal_change clear set).1.inner.signal := by
  rw [signal_change_signal, signal_change_signal]
  exact sdiff_union_idem o.inner.signal clear set

/-- Claim C9: the default capability-set implementations: `get_child` fails
with `WRONG_TYPE` for every id, `peer` fails with `NOT_SUPPORTED`,
`related_koid` is zero, and `allowed_signals` is `USER_ALL`, the full
user-signal range (exactly the bits 24–31). -/
theorem kernel_object_defaults :
    (∀ id : KoID, KernelObject.get_child id = Except.error ZxError.WRONG_TYPE) ∧
    KernelObject.peer = Except.error ZxError.NOT_SUPPORTED ∧
    KernelObject.related_koid = 0 ∧
    KernelObject.allowed_signals = Signal.USER_ALL ∧
    (∀ b : Fin 32, b ∈ KernelObject.allowed_signals ↔ 24 ≤ b.val) := by
  refine ⟨fun _ => rfl, rfl, rfl, rfl, ?_⟩
  decide

/-- Claim C2: polling a single-object wait resolves with the full currently
observed signal exactly when the current signal intersects the target;
otherwise the first poll (and only the first, guarded by the `first` flag)
appends exactly one callback and returns pending, later polls return pending
without registering; the registered callback returns `false` on a
non-intersecting signal and wakes the waiter and returns `true` otherwise. -/
theorem wait_signal_spec (o : KObjectBase) (target : Signal) (first : Bool)
    (cbId waker : Nat) :
    (wait_signal o target = ⟨o, target, true⟩) ∧
    (Signal.isEmpty (Signal.and o.signal target) = false →
      SignalFuture.poll ⟨o, target, first⟩ cbId waker =
        (Poll.ready o.signal, ⟨o, target, first⟩, [])) ∧
    (Signal.isEmpty (Signal.and o.signal target) = true →
      (SignalFuture.poll ⟨o, target, first⟩ cbId waker).1 = Poll.pending) ∧
    (Signal.isEmpty (Signal.and o.signal target) = true → first = true →
      SignalFuture.poll ⟨o, target, first⟩ cbId waker =
        (Poll.pending,
         ⟨{ o with inner := { o.inner with signal_callbacks :=
              o.inner.signal_callbacks ++ [⟨cbId, wait_callback target waker⟩] } },
          target, false⟩, [])) ∧
    (Signal.isEmpty (Signal.and o.signal target) = true → first = false →
      SignalFuture.poll ⟨o, target, first⟩ cbId waker =
        (Poll.pending, ⟨o, target, first⟩, [])) ∧
    (∀ s : Signal,
      (Signal.isEmpty (Signal.and s target) = true →
        wait_callback target waker s = (false, [])) ∧
      (Signal.isEmpty (Signal.and s target) = false →
        wait_callback target waker s = (true, [Effect.wake waker]))) := by
  refine ⟨rfl, fun h => ?_, fun h => ?_, fun h hf => ?_, fun h hf => ?_,
    fun s => ⟨fun hs => ?_, fun hs => ?_⟩⟩
  · simp only [KObjectBase.signal] at h
    simp [SignalFuture.poll, KObjectBase.signal, h]
  · simp only [KObjectBase.signal] at h
    simp only [SignalFuture.poll, KObjectBase.signal, h, not_true, if_false,
      Bool.true_eq_false, ite_false]
    split <;> rfl
  · subst hf
    simp only [KObjectBase.signal] at h
    simp [SignalFuture.poll, KObjectBase.signal, KObjectBase.add_signal_callback,
      wait_callback, h]
  · subst hf
    simp only [KObjectBase.signal] at h
    simp [SignalFuture.poll, KObjectBase.signal, h]
  · simp [wait_callback, hs]
  · simp [wait_callback, hs]

/-- Claim C4: `send_signal_to_port_async` on an already-intersecting signal
pushes exactly one packet (key, OK status, trigger = mask, observed =
pre-call signal, count 1, timestamp 0) and registers nothing; otherwise it
pushes nothing and appends one callback which stays registered on
non-intersecting signals and, on the first intersecting signal `s`, pushes
one such packet with observed `s` and returns `true`. -/
theorem send_signal_to_port_async_spec (o : KObjectBase) (mask : Signal)
    (port key cbId : Nat) :
    (Signal.isEmpty (Signal.and o.signal mask) = false →
      o.send_signal_to_port_async mask port key cbId =
        (o, [Effect.push port (signalPacket key mask o.signal)])) ∧
    (Signal.isEmpty (Signal.and o.signal mask) = true →
      o.send_signal_to_port_async mask port key cbId =
        ({ o with inner := { o.inner with signal_callbacks :=
            o.inner.signal_callbacks ++ [⟨cbId, port_callback mask port key⟩] } },
         [])) ∧
    (∀ s : Signal,
      (Signal.isEmpty (Signal.and s mask) = true →
        port_callback mask port key s = (false, [])) ∧
      (Signal.isEmpty (Signal.and s mask) = false →
        port_callback mask port key s =
          (true, [Effect.push port (signalPacket key mask s)]))) ∧
    (∀ observed : Signal, signalPacket key mask observed =
      { key := key, status := ZxError.OK,
        data := PayloadRepr.signal
          { trigger := mask, observed := observed, count := 1,
            timestamp := 0, _reserved1 := 0 } }) := by
  refine ⟨fun h => ?_, fun h => ?_, fun s => ⟨fun hs => ?_, fun hs => ?_⟩,
    fun observed => rfl⟩
  · simp only [KObjectBase.signal] at h
    simp [KObjectBase.send_signal_to_port_async, KObjectBase.signal, h]
  · simp only [KObjectBase.signal] at h
    simp [KObjectBase.send_signal_to_port_async, KObjectBase.signal,
      KObjectBase.add_signal_callback, port_callback, h]
  · simp [port_callback, hs]
  · simp [port_callback, hs]

/-- Claim C10: with an empty target mask a single-object wait never resolves —
every poll returns pending and the registered callback returns `false` (no
wake, no retirement) on every signal; likewise `send_signal_to_port_async`
with an empty mask pushes nothing, and the callback it registers never
fires. -/
theorem empty_mask_never_resolves (o : KObjectBase) (first : Bool)
    (cbId waker port key : Nat) :
    ((SignalFuture.poll ⟨o, Signal.emptySig, first⟩ cbId waker).1 = Poll.pending) ∧
    (∀ s : Signal, wait_callback Signal.emptySig waker s = (false, [])) ∧
    (∀ s : Signal, port_callback Signal.emptySig port key s = (false, [])) ∧
    ((o.send_signal_to_port_async Signal.emptySig port key cbId).2 = []) ∧
    ((o.send_signal_to_port_async Signal.emptySig port key cbId).1.inner.signal_callbacks =
      o.inner.signal_callbacks ++ [⟨cbId, port_callback Signal.emptySig port key⟩]) := by
  have hempty : ∀ s : Signal, Signal.isEmpty (Signal.and s Signal.emptySig) = true := by
    intro s
    simp [Signal.isEmpty, Signal.and, Signal.emptySig]
  refine ⟨?_, fun s => ?_, fun s => ?_, ?_, ?_⟩
  · simp only [SignalFuture.poll, KObjectBase.signal, hempty, not_true,
      Bool.true_eq_false, ite_false]
    split <;> rfl
  · simp [wait_callback, hempty s]
  · simp [port_callback, hempty s]
  · simp [KObjectBase.send_signal_to_port_async, KObjectBase.signal,
      KObjectBase.add_signal_callback, port_callback, hempty o.inner.signal]
  · simp [KObjectBase.send_signal_to_port_async, KObjectBase.signal,
      KObjectBase.add_signal_callback, port_callback, hempty o.inner.signal]

/-- A handler invoked by a transition is an entry of the callback list. -/
theorem invoked_mem (o : KObjectBase) (clear set : Signal) :
    ∀ f ∈ o.invoked clear set, f ∈ o.inner.signal_callbacks := by
  intro f hf
  simp only [KObjectBase.invoked] at hf
  split at hf
  · simp at hf
  · exact hf

/-- A transition that invokes anything is not a no-op. -/
theorem invoked_ne (o : KObjectBase) (clear set : Signal) (f : SignalHandler)
    (hf : f ∈ o.invoked clear set) :
    Signal.insert (Signal.remove o.inner.signal clear) set ≠ o.inner.signal := by
  intro h
  simp [KObjectBase.invoked, h] at hf

/-- A closure id absent from the callback list stays absent across one
`signal_change`. -/
theorem signal_change_absent (o : KObjectBase) (clear set : Signal) (i : Nat)
    (h : i ∉ o.inner.signal_callbacks.map SignalHandler.cbId) :
    i ∉ (o.signal_change clear set).1.inner.signal_callbacks.map SignalHandler.cbId := by
  rw [signal_change_callbacks]
  split
  · exact h
  · intro hmem
    apply h
    rcases List.mem_map.mp hmem with ⟨f, hf, rfl⟩
    exact List.mem_map.mpr ⟨f, List.mem_of_mem_filter hf, rfl⟩

/-- A closure id absent from the callback list stays absent across any
sequence of `signal_change` operations. -/
theorem runChanges_absent (ops : List (Signal × Signal)) (o : KObjectBase) (i : Nat)
    (h : i ∉ o.inner.signal_callbacks.map SignalHandler.cbId) :
    i ∉ (o.runChanges ops).inner.signal_callbacks.map SignalHandler.cbId := by
  induction ops generalizing o with
  | nil => exact h
  | cons p rest ih =>
    show i ∉ (((o.signal_change p.1 p.2).1).runChanges rest).inner.signal_callbacks.map
      SignalHandler.cbId
    exact ih _ (signal_change_absent o p.1 p.2 i h)

/-- Claim C6: once an invocation of a callback during a transition returns
`true`, that callback (identified by its closure id, assumed not shared by a
surviving entry) is removed from the registry by that transition, and no
later `signal_change`/`signal_set`/`signal_clear` on the object ever invokes
it again. -/
theorem at_most_one_retirement (o : KObjectBase) (clear set : Signal)
    (f : SignalHandler) (ops : List (Signal × Signal)) (clear2 set2 : Signal)
    (hf : f ∈ o.invoked clear set)
    (hid : ∀ g ∈ o.inner.signal_callbacks, g.cbId = f.cbId →
      (g.run (Signal.insert (Signal.remove o.inner.signal clear) set)).1 = true) :
    f.cbId ∉ (o.signal_change clear set).1.inner.signal_callbacks.map
      SignalHandler.cbId ∧
    f.cbId ∉ ((((o.signal_change clear set).1.runChanges ops).invoked
      clear2 set2).map SignalHandler.cbId) := by
  have habs : f.cbId ∉ (o.signal_change clear set).1.inner.signal_callbacks.map
      SignalHandler.cbId := by
    rw [signal_change_callbacks, if_neg (invoked_ne o clear set f hf)]
    intro hmem
    rcases List.mem_map.mp hmem with ⟨g, hg, hgid⟩
    have hg2 := List.mem_filter.mp hg
    have := hid g hg2.1 hgid
    simp [this] at hg2
  refine ⟨habs, fun hmem => ?_⟩
  have habs2 := runChanges_absent ops _ f.cbId habs
  exact habs2 (List.mem_map.mpr
    (by
      rcases List.mem_map.mp hmem with ⟨g, hg, hgid⟩
      exact ⟨g, invoked_mem _ clear2 set2 g hg, hgid⟩))

/-- Every constructor draws its id from the wrapping counter exactly once. -/
theorem runCtor_id (c : KObjCtor) (k : Nat) :
    (runCtor c k).1.id = k % U64_MOD ∧ (runCtor c k).2 = (k + 1) % U64_MOD := by
  cases c <;> exact ⟨rfl, rfl⟩

/-- Pointwise characterization of a construction sequence started at counter
value `k`: the `i`-th object's id is `(k + i) % 2^64`, and a nonempty
sequence leaves the counter at `(k + length) % 2^64`. -/
theorem buildAll_ids (ctors : List KObjCtor) (k : Nat) :
    (buildAll ctors k).1.length = ctors.length ∧
    (∀ i : Nat, ((buildAll ctors k).1[i]?).map KObjectBase.id =
      if i < ctors.length then some ((k + i) % U64_MOD) else none) ∧
    (ctors ≠ [] → (buildAll ctors k).2 = (k + ctors.length) % U64_MOD) := by
  induction ctors generalizing k with
  | nil =>
    refine ⟨rfl, fun i => by simp [buildAll], fun h => absurd rfl h⟩
  | cons c rest ih =>
    obtain ⟨hid, hk⟩ := runCtor_id c k
    obtain ⟨ih1, ih2, ih3⟩ := ih ((k + 1) % U64_MOD)
    refine ⟨?_, fun i => ?_, fun _ => ?_⟩
    · simp [buildAll, hk, ih1]
    · cases i with
      | zero => simp [buildAll, hid]
      | succ n =>
        have h2 := ih2 n
        simp only [buildAll, List.getElem?_cons_succ, hk]
        rw [h2]
        have hmod : ((k + 1) % U64_MOD + n) % U64_MOD = (k + (n + 1)) % U64_MOD := by
          rw [Nat.mod_add_mod]
          congr 1
          omega
        rw [hmod]
        simp [Nat.add_lt_add_iff_right]
    · rcases eq_or_ne rest [] with hr | hr
      · subst hr
        simp [buildAll, hk]
      · have h3 := ih3 hr
        simp only [buildAll, hk, h3, List.length_cons]
        rw [Nat.mod_add_mod]
        congr 1
        omega

/-- Claim C8 (amended): KoIDs are 64-bit values (naturals below `2^64`)
drawn from the single process-wide wrapping counter seeded at the reserved
non-zero value 1024; every construction (`new`, `with_signal`, `with_name`,
`with`) draws a fresh id exactly once, and for any construction sequence
during which the counter does not wrap (seed + number of constructions
≤ `2^64`) distinct constructions yield distinct, strictly increasing ids,
none of them zero or below the seed; no state mutation ever changes an
object's id. -/
theorem koid_spec (ctors : List KObjCtor) (i j : Nat)
    (hij : i < j) (hj : j < ctors.length)
    (hwrap : KOID_SEED + ctors.length ≤ U64_MOD)
    (o : KObjectBase) (clear set : Signal) (cb : SignalHandler) (nm : String) :
    (KOID_SEED = 1024 ∧ KOID_SEED ≠ 0) ∧
    ((buildAll ctors KOID_SEED).1.length = ctors.length) ∧
    (ctors ≠ [] →
      (buildAll ctors KOID_SEED).2 = (KOID_SEED + ctors.length) % U64_MOD) ∧
    (((buildAll ctors KOID_SEED).1[i]?).map KObjectBase.id =
        some (KOID_SEED + i) ∧
     ((buildAll ctors KOID_SEED).1[j]?).map KObjectBase.id =
        some (KOID_SEED + j) ∧
     KOID_SEED + i < KOID_SEED + j) ∧
    (∀ x ∈ (buildAll ctors KOID_SEED).1.map KObjectBase.id,
      KOID_SEED ≤ x ∧ x ≠ 0 ∧ x < U64_MOD) ∧
    ((o.signal_change clear set).1.id = o.id ∧
     (o.signal_set set).1.id = o.id ∧
     (o.signal_clear clear).1.id = o.id ∧
     (o.add_signal_callback cb).1.id = o.id ∧
     (o.set_name nm).id = o.id) := by
  obtain ⟨hlen, hpt, hcnt⟩ := buildAll_ids ctors KOID_SEED
  have hseed : KOID_SEED = 1024 := rfl
  have hi : i < ctors.length := lt_trans hij hj
  refine ⟨⟨rfl, by decide⟩, hlen, hcnt,
    ⟨?_, ?_, Nat.add_lt_add_left hij KOID_SEED⟩, ?_, ?_, ?_, ?_, ?_, ?_⟩
  · rw [hpt i, if_pos hi, Nat.mod_eq_of_lt (by omega)]
  · rw [hpt j, if_pos hj, Nat.mod_eq_of_lt (by omega)]
  · intro x hx
    obtain ⟨n, hn⟩ := List.mem_iff_getElem?.mp hx
    rw [List.getElem?_map, hpt n] at hn
    by_cases hlt : n < ctors.length
    · rw [if_pos hlt] at hn
      have hlt2 : KOID_SEED + n < U64_MOD := by omega
      have hx3 : x = KOID_SEED + n := by
        rw [← Option.some_inj.mp hn, Nat.mod_eq_of_lt hlt2]
      subst hx3
      refine ⟨Nat.le_add_right _ _, ?_, hlt2⟩
      show (1024 : Nat) + n ≠ 0
      omega
    · rw [if_neg hlt] at hn
      exact absurd hn (by simp)
  · exact signal_change_id o clear set
  · exact signal_change_id o ∅ set
  · exact signal_change_id o clear ∅
  · simp only [KObjectBase.add_signal_callback]
    split <;> rfl
  · rfl

/-- Counterexample to claim C8 as stated: over the wrapping u64 counter, the
construction sequence of `2^64 - 1023` objects assigns the id `2^64 - 1` at
index `2^64 - 1025` and the id `0` at the next index `2^64 - 1024` — an id
that is zero, below the seed, and smaller than its predecessor, refuting
unbounded strict monotonicity, uniqueness and non-nullity. -/
theorem koid_wrap_counterexample :
    ((buildAll (List.replicate (U64_MOD - 1023) KObjCtor.mkNew)
        KOID_SEED).1[U64_MOD - 1025]?).map KObjectBase.id =
      some (U64_MOD - 1) ∧
    ((buildAll (List.replicate (U64_MOD - 1023) KObjCtor.mkNew)
        KOID_SEED).1[U64_MOD - 1024]?).map KObjectBase.id = some 0 ∧
    U64_MOD - 1025 < U64_MOD - 1024 ∧ 0 < U64_MOD - 1 := by
  obtain ⟨hlen, hpt, hcnt⟩ :=
    buildAll_ids (List.replicate (U64_MOD - 1023) KObjCtor.mkNew) KOID_SEED
  have h1 := hpt (U64_MOD - 1025)
  have h2 := hpt (U64_MOD - 1024)
  rw [List.length_replicate] at h1 h2
  rw [h1, h2]
  refine ⟨by decide, by decide, by decide, by decide⟩

/-- On the snapshot taken by `poll`, `happened` is the disjunction, over the
targets, of "current signal intersects desired mask". -/
theorem happened_self (targets : List (KObjectBase × Signal)) :
    SignalManyFuture.happened targets (targets.map fun t => t.1.signal) =
      targets.any fun t => ! Signal.isEmpty (Signal.and t.1.signal t.2) := by
  induction targets with
  | nil => rfl
  | cons t rest ih =>
    simp only [SignalManyFuture.happened, List.map_cons, List.zip_cons_cons,
      List.any_cons] at *
    rw [ih]

/-- `happened` holds on the snapshot iff some target's current signal
intersects its desired mask. -/
theorem happened_iff (targets : List (KObjectBase × Signal)) :
    SignalManyFuture.happened targets (targets.map fun t => t.1.signal) = true ↔
      ∃ t ∈ targets, Signal.isEmpty (Signal.and t.1.signal t.2) = false := by
  rw [happened_self, List.any_eq_true]
  constructor
  · rintro ⟨t, ht, hp⟩
    exact ⟨t, ht, by simpa using hp⟩
  · rintro ⟨t, ht, hp⟩
    exact ⟨t, ht, by simp [hp]⟩

/-- `happened` fails on the snapshot iff no target's current signal
intersects its desired mask. -/
theorem happened_false_iff (targets : List (KObjectBase × Signal)) :
    SignalManyFuture.happened targets (targets.map fun t => t.1.signal) = false ↔
      ∀ t ∈ targets, Signal.isEmpty (Signal.and t.1.signal t.2) = true := by
  rw [happened_self, List.any_eq_false]
  constructor <;> intro h t ht <;> have h2 := h t ht <;> simpa using h2

/-- When no target currently qualifies, the registration loop performs no
effect and appends exactly one wake callback to each target's object, with
consecutive closure ids, leaving everything else unchanged. -/
theorem register_callbacks_pending (waker : Nat) (cbId : Nat)
    (l : List (KObjectBase × Signal))
    (h : ∀ t ∈ l, Signal.isEmpty (Signal.and t.1.signal t.2) = true) :
    (register_callbacks waker cbId l).2 = [] ∧
    ∀ i : Nat, (register_callbacks waker cbId l).1[i]? =
      (l[i]?).map fun t =>
        ({ t.1 with inner := { t.1.inner with signal_callbacks :=
            t.1.inner.signal_callbacks ++ [⟨cbId + i, wait_callback t.2 waker⟩] } },
         t.2) := by
  induction l generalizing cbId with
  | nil => exact ⟨rfl, fun i => rfl⟩
  | cons t rest ih =>
    have ht := h t (List.mem_cons_self t rest)
    simp only [KObjectBase.signal] at ht
    obtain ⟨ih1, ih2⟩ := ih (cbId + 1) fun u hu => h u (List.mem_cons_of_mem t hu)
    have hadd : t.1.add_signal_callback ⟨cbId, wait_callback t.2 waker⟩ =
        ({ t.1 with inner := { t.1.inner with signal_callbacks :=
            t.1.inner.signal_callbacks ++ [⟨cbId, wait_callback t.2 waker⟩] } },
         []) := by
      simp [KObjectBase.add_signal_callback, wait_callback, ht]
    constructor
    · simp [register_callbacks, hadd, ih1]
    · intro i
      cases i with
      | zero => simp [register_callbacks, hadd]
      | succ n =>
        simp only [register_callbacks, hadd]
        have h2 := ih2 n
        simp only [List.getElem?_cons_succ]
        simpa [Nat.add_assoc, Nat.add_comm 1 n] using h2

/-- Claim C5: a multi-object wait resolves exactly when at least one target's
current signal intersects its own desired mask; on resolution it returns, in
target order, every target's observed signal — a vector of exactly N
entries; while no target qualifies every poll is pending and the first poll
registers exactly one callback per target. -/
theorem wait_signal_many_spec (targets : List (KObjectBase × Signal))
    (first : Bool) (cbId waker : Nat) :
    (wait_signal_many targets = ⟨targets, true⟩) ∧
    (SignalManyFuture.happened targets (targets.map fun t => t.1.signal) = true ↔
      ∃ t ∈ targets, Signal.isEmpty (Signal.and t.1.signal t.2) = false) ∧
    (SignalManyFuture.happened targets (targets.map fun t => t.1.signal) = true →
      SignalManyFuture.poll ⟨targets, first⟩ cbId waker =
        (Poll.ready (targets.map fun t => t.1.signal), ⟨targets, first⟩, []) ∧
      (targets.map fun t => t.1.signal).length = targets.length) ∧
    (SignalManyFuture.happened targets (targets.map fun t => t.1.signal) = false →
      ((SignalManyFuture.poll ⟨targets, first⟩ cbId waker).1 = Poll.pending) ∧
      (first = true →
        (SignalManyFuture.poll ⟨targets, first⟩ cbId waker).2.2 = [] ∧
        (SignalManyFuture.poll ⟨targets, first⟩ cbId waker).2.1.first = false ∧
        ∀ i : Nat,
          (SignalManyFuture.poll ⟨targets, first⟩ cbId waker).2.1.targets[i]? =
            (targets[i]?).map fun t =>
              ({ t.1 with inner := { t.1.inner with signal_callbacks :=
                  t.1.inner.signal_callbacks ++
                    [⟨cbId + i, wait_callback t.2 waker⟩] } }, t.2)) ∧
      (first = false →
        SignalManyFuture.poll ⟨targets, first⟩ cbId waker =
          (Poll.pending, ⟨targets, first⟩, []))) := by
  refine ⟨rfl, happened_iff targets, fun h => ?_, fun h => ?_⟩
  · exact ⟨by simp [SignalManyFuture.poll, h], by simp⟩
  · have hall := (happened_false_iff targets).mp h
    refine ⟨?_, fun hf => ?_, fun hf => ?_⟩
    · simp only [SignalManyFuture.poll, h]
      split
      · simp_all
      · split <;> rfl
    · subst hf
      obtain ⟨h1, h2⟩ := register_callbacks_pending waker cbId targets hall
      refine ⟨?_, ?_, fun i => ?_⟩
      · simp [SignalManyFuture.poll, h, h1]
      · simp [SignalManyFuture.poll, h]
      · simp only [SignalManyFuture.poll, h, Bool.false_eq_true, if_false,
          ite_true]
        simpa using h2 i
    · subst hf
      simp [SignalManyFuture.poll, h]


/-- Witness for C1: on the transition `∅ → {0}` of a state holding one
retiring and one persisting callback, exactly the persisting one is kept. -/
theorem signal_change_spec_witness :
    Signal.insert (Signal.remove sampleObjC.inner.signal ∅) {0} ≠
      sampleObjC.inner.signal ∧
    (sampleObjC.signal_change ∅ {0}).1.inner.signal_callbacks =
      [sampleHandlerFalse] :=
  ⟨by decide, (signal_change_spec sampleObjC ∅ {0}).2.2 (by decide)⟩

/-- Witness for C3: adding a not-yet-satisfied callback appends it at the
tail of the callback list. -/
theorem add_signal_callback_spec_witness :
    (sampleHandlerFalse.run sampleObj0.inner.signal).1 = false ∧
    (sampleObj0.add_signal_callback sampleHandlerFalse).1.inner.signal_callbacks =
      [sampleHandlerFalse] :=
  ⟨rfl, (add_signal_callback_spec sampleObj0 sampleHandlerFalse).2.1 rfl⟩

/-- Witness for C2: for an object with signal `{0}` and target `{1}`, the
first poll is pending and registers one wake callback; the callback ignores
the non-intersecting signal `{5}` and fires on `{1, 2}`. -/
theorem wait_signal_spec_witness :
    Signal.isEmpty (Signal.and (KObjectBase.signal sampleObj1) {1}) = true ∧
    SignalFuture.poll ⟨sampleObj1, {1}, true⟩ 5 3 =
      (Poll.pending,
       ⟨⟨1024, { name := "", signal := {0},
                 signal_callbacks := [⟨5, wait_callback {1} 3⟩] }⟩, {1}, false⟩,
       []) ∧
    wait_callback {1} 3 {5} = (false, []) ∧
    wait_callback {1} 3 {1, 2} = (true, [Effect.wake 3]) :=
  ⟨by decide,
   (wait_signal_spec sampleObj1 {1} true 5 3).2.2.2.1 (by decide) rfl,
   ((wait_signal_spec sampleObj1 {1} true 5 3).2.2.2.2.2 {5}).1 (by decide),
   ((wait_signal_spec sampleObj1 {1} true 5 3).2.2.2.2.2 {1, 2}).2 (by decide)⟩

/-- Witness for C4: for an object with signal `{2}` and mask `{2, 3}` the
fast path pushes exactly one packet without registration; the slow-path
callback ignores `{5}` and fires once on `{3}`. -/
theorem send_signal_to_port_async_spec_witness :
    Signal.isEmpty (Signal.and (KObjectBase.signal sampleObj2) {2, 3}) = false ∧
    sampleObj2.send_signal_to_port_async {2, 3} 9 77 4 =
      (sampleObj2,
       [Effect.push 9 (signalPacket 77 {2, 3} (KObjectBase.signal sampleObj2))]) ∧
    port_callback {2, 3} 9 77 {5} = (false, []) ∧
    port_callback {2, 3} 9 77 {3} =
      (true, [Effect.push 9 (signalPacket 77 {2, 3} {3})]) :=
  ⟨by decide,
   (send_signal_to_port_async_spec sampleObj2 {2, 3} 9 77 4).1 (by decide),
   ((send_signal_to_port_async_spec sampleObj2 {2, 3} 9 77 4).2.2.1 {5}).1 (by decide),
   ((send_signal_to_port_async_spec sampleObj2 {2, 3} 9 77 4).2.2.1 {3}).2 (by decide)⟩

/-- Witness for C6: the single stored callback retires on the transition
`∅ → {0}`, is absent from the registry afterwards, and is not invoked by the
later transitions `{0} → ∅` and `∅ → {5}`. -/
theorem at_most_one_retirement_witness :
    sampleHandlerTrue ∈ KObjectBase.invoked sampleObj6 ∅ {0} ∧
    sampleHandlerTrue.cbId ∉
      (sampleObj6.signal_change ∅ {0}).1.inner.signal_callbacks.map
        SignalHandler.cbId ∧
    sampleHandlerTrue.cbId ∉
      ((((sampleObj6.signal_change ∅ {0}).1.runChanges [({0}, ∅)]).invoked
        ∅ {5}).map SignalHandler.cbId) := by
  have hf : sampleHandlerTrue ∈ KObjectBase.invoked sampleObj6 ∅ {0} := by
    simp [KObjectBase.invoked, sampleObj6, Signal.insert, Signal.remove]
  have h2 := at_most_one_retirement sampleObj6 ∅ {0} sampleHandlerTrue
    [({0}, ∅)] ∅ {5} hf
    (by
      intro g hg h
      have hgf : g = sampleHandlerTrue := by
        simpa [sampleObj6] using hg
      subst hgf
      rfl)
  exact ⟨hf, h2.1, h2.2⟩

/-- Witness for C8: two constructions from the seed (well below the wrap
bound) get the ids 1024 and 1025 and advance the counter to 1026; state
mutations keep an object's id. -/
theorem koid_spec_witness :
    (0 < 1 ∧ 1 < [KObjCtor.mkNew, KObjCtor.mkWith "a" {0}].length ∧
     KOID_SEED + [KObjCtor.mkNew, KObjCtor.mkWith "a" {0}].length ≤ U64_MOD) ∧
    ((buildAll [KObjCtor.mkNew, KObjCtor.mkWith "a" {0}] KOID_SEED).1.length = 2) ∧
    ((buildAll [KObjCtor.mkNew, KObjCtor.mkWith "a" {0}] KOID_SEED).2 = 1026) ∧
    (((buildAll [KObjCtor.mkNew, KObjCtor.mkWith "a" {0}] KOID_SEED).1[0]?).map
        KObjectBase.id = some 1024) ∧
    (((buildAll [KObjCtor.mkNew, KObjCtor.mkWith "a" {0}] KOID_SEED).1[1]?).map
        KObjectBase.id = some 1025) ∧
    ((sampleObj1.signal_change ∅ {1}).1.id = 1024) ∧
    ((sampleObj1.add_signal_callback sampleHandlerFalse).1.id = 1024) ∧
    ((sampleObj1.set_name "b").id = 1024) :=
  ⟨⟨by decide, by decide, by decide⟩,
   (koid_spec [KObjCtor.mkNew, KObjCtor.mkWith "a" {0}] 0 1 (by decide) (by decide)
     (by decide) sampleObj1 ∅ {1} sampleHandlerFalse "b").2.1,
   (koid_spec [KObjCtor.mkNew, KObjCtor.mkWith "a" {0}] 0 1 (by decide) (by decide)
     (by decide) sampleObj1 ∅ {1} sampleHandlerFalse "b").2.2.1
     (List.cons_ne_nil _ _),
   (koid_spec [KObjCtor.mkNew, KObjCtor.mkWith "a" {0}] 0 1 (by decide) (by decide)
     (by decide) sampleObj1 ∅ {1} sampleHandlerFalse "b").2.2.2.1.1,
   (koid_spec [KObjCtor.mkNew, KObjCtor.mkWith "a" {0}] 0 1 (by decide) (by decide)
     (by decide) sampleObj1 ∅ {1} sampleHandlerFalse "b").2.2.2.1.2.1,
   (koid_spec [KObjCtor.mkNew, KObjCtor.mkWith "a" {0}] 0 1 (by decide) (by decide)
     (by decide) sampleObj1 ∅ {1} sampleHandlerFalse "b").2.2.2.2.2.1,
   (koid_spec [KObjCtor.mkNew, KObjCtor.mkWith "a" {0}] 0 1 (by decide) (by decide)
     (by decide) sampleObj1 ∅ {1} sampleHandlerFalse "b").2.2.2.2.2.2.2.2.1,
   (koid_spec [KObjCtor.mkNew, KObjCtor.mkWith "a" {0}] 0 1 (by decide) (by decide)
     (by decide) sampleObj1 ∅ {1} sampleHandlerFalse "b").2.2.2.2.2.2.2.2.2⟩

/-- Witness for C5: for one target whose object signal `∅` does not
intersect its desired mask `{0}`, the first poll is pending, performs no
effect, clears the `first` flag, and registers one callback on the target. -/
theorem wait_signal_many_spec_witness :
    SignalManyFuture.happened sampleTargets [∅] = false ∧
    ((SignalManyFuture.poll ⟨sampleTargets, true⟩ 10 3).1 = Poll.pending) ∧
    ((SignalManyFuture.poll ⟨sampleTargets, true⟩ 10 3).2.2 = []) ∧
    ((SignalManyFuture.poll ⟨sampleTargets, true⟩ 10 3).2.1.first = false) ∧
    ((SignalManyFuture.poll ⟨sampleTargets, true⟩ 10 3).2.1.targets[0]? =
      some (⟨1024, { name := "", signal := ∅,
                     signal_callbacks := [⟨10, wait_callback {0} 3⟩] }⟩,
            ({0} : Signal))) :=
  ⟨by decide,
   ((wait_signal_many_spec sampleTargets true 10 3).2.2.2 (by decide)).1,
   (((wait_signal_many_spec sampleTargets true 10 3).2.2.2 (by decide)).2.1 rfl).1,
   (((wait_signal_many_spec sampleTargets true 10 3).2.2.2 (by decide)).2.1 rfl).2.1,
   (((wait_signal_many_spec sampleTargets true 10 3).2.2.2 (by decide)).2.1 rfl).2.2 0⟩
